import Mathlib

/-
Verification of the row-group consistency validator in scripts/data_validation.py.

The dataset model follows pandas semantics as used by the source:
  - a DataFrame is a column-name list plus a list of rows, each row a list of
    (column, value) bindings; a missing binding reads as a missing value (NaN);
  - Value.missing models both NaN and NaT (the source never distinguishes them
    in a way the claims depend on);
  - groupby uses dropna=True (rows with a missing key form no group), nunique
    uses dropna=True (missing values are not counted), unique keeps missing as
    one entry, and isin is false on missing values;
  - column comparisons such as (data[c] < 0) are false on missing values;
  - pandas groupby sorts group keys; the embedding uses first-appearance order,
    which no property below depends on.
-/

namespace Zomato

inductive Value where
  | str : String → Value
  | int : Int → Value
  | date : Nat → Value
  | missing : Value
deriving DecidableEq, Repr

def Value.isMissing : Value → Bool
  | .missing => true
  | _ => false

/-- Rendering of a value inside a formatted message (str uses the raw text,
numbers their decimal form, missing prints as nan). -/
def Value.fmt : Value → String
  | .str s => s
  | .int n => toString n
  | .date n => toString n
  | .missing => "nan"

/-- pandas comparison (v < m) on a numeric column: false on missing. -/
def Value.ltInt : Value → Int → Bool
  | .int n, m => n < m
  | _, _ => false

/-- pandas comparison (v > m) on a numeric column: false on missing. -/
def Value.gtInt : Value → Int → Bool
  | .int n, m => n > m
  | _, _ => false

/-- pandas Series.isin with a set of strings: false on missing and on
non-string values. -/
def Value.isinStr (v : Value) (allowed : List String) : Bool :=
  match v with
  | .str s => allowed.contains s
  | _ => false

abbrev Row := List (String × Value)

structure DataFrame where
  columns : List String
  rows : List Row
deriving DecidableEq, Repr

/-- Value of column c in row r; a missing binding reads as NaN, matching a
DataFrame cell that was never set. -/
def getVal (r : Row) (c : String) : Value :=
  match r.find? (fun p => p.1 == c) with
  | some p => p.2
  | none => Value.missing

def colVals (d : DataFrame) (c : String) : List Value :=
  d.rows.map (fun r => getVal r c)

/-- Distinct elements in order of first appearance, the dedup underlying
pandas unique and nunique. -/
def dedupAux : List Value → List Value → List Value
  | _, [] => []
  | seen, v :: vs => if v ∈ seen then dedupAux seen vs else v :: dedupAux (v :: seen) vs

def dedupFirst (l : List Value) : List Value := dedupAux [] l

/-- Group keys of data.groupby(c): the distinct non-missing values of column c
(dropna=True, the pandas default, silently drops rows whose key is missing). -/
def groupKeys (d : DataFrame) (c : String) : List Value :=
  dedupFirst ((colVals d c).filter (fun v => !v.isMissing))

/-- Rows of the group with key k under data.groupby(c). -/
def groupRows (d : DataFrame) (c : String) (k : Value) : List Row :=
  d.rows.filter (fun r => getVal r c == k)

/-- Values of column dep over the group of c with key k. -/
def groupDepVals (d : DataFrame) (c : String) (k : Value) (dep : String) : List Value :=
  (groupRows d c k).map (fun r => getVal r dep)

/-- data.groupby(c)[dep].nunique() at key k: count of distinct non-missing
values (nunique default dropna=True ignores missing). -/
def nuniqueDep (d : DataFrame) (c : String) (k : Value) (dep : String) : Nat :=
  (dedupFirst ((groupDepVals d c k dep).filter (fun v => !v.isMissing))).length

/-- data.groupby(c)[dep].unique() at key k: distinct values in order of first
appearance, missing kept as one entry. -/
def uniqueDep (d : DataFrame) (c : String) (k : Value) (dep : String) : List Value :=
  dedupFirst (groupDepVals d c k dep)

/-- Messages appended by the first loop of validate_id (lines 27-31): ids
whose group holds more than one distinct delivery_person_id by nunique. -/
def idDirectionMsgs (d : DataFrame) : List String :=
  (groupKeys d "id").filterMap (fun k =>
    if nuniqueDep d "id" k "delivery_person_id" > 1 then
      some ("ID " ++ k.fmt ++ " has multiple delivery_person_ids.")
    else none)

/-- Messages appended by the second loop of validate_id (lines 33-37). -/
def dpidDirectionMsgs (d : DataFrame) : List String :=
  (groupKeys d "delivery_person_id").filterMap (fun k =>
    if nuniqueDep d "delivery_person_id" k "id" > 1 then
      some ("Delivery Person ID " ++ k.fmt ++ " has multiple ids.")
    else none)

/-- Source validate_id (data_validation.py lines 10-39). Raising ValueError is
modelled as Except.error; the message drops the quote marks of the source
literal but names the same columns. -/
def validate_id (d : DataFrame) : Except String (List String) :=
  if "id" ∉ d.columns ∨ "delivery_person_id" ∉ d.columns then
    .error "The DataFrame must contain id and delivery_person_id columns."
  else
    .ok (idDirectionMsgs d ++ dpidDirectionMsgs d)

/-- Unique ages of one delivery_person_id group, line 74 of the source. -/
def uniqueAges (d : DataFrame) (k : Value) : List Value :=
  uniqueDep d "delivery_person_id" k "delivery_person_age"

/-- Dict entry decision of lines 77-79: a key enters the discrepancy dict
exactly when its group shows more than one unique age, carrying the full
unique list. -/
def agesEntry (d : DataFrame) (k : Value) : Option (Value × List Value) :=
  if (uniqueAges d k).length > 1 then some (k, uniqueAges d k) else none

/-- Example dataset of spec section 8: rows id 1 age 30, id 1 age 31,
id 2 age 40, under the column names validate_delivery_person_age reads. -/
def ageExample : DataFrame :=
  ⟨["delivery_person_id", "delivery_person_age"],
    [[("delivery_person_id", Value.int 1), ("delivery_person_age", Value.int 30)],
     [("delivery_person_id", Value.int 1), ("delivery_person_age", Value.int 31)],
     [("delivery_person_id", Value.int 2), ("delivery_person_age", Value.int 40)]]⟩

/-- Source validate_delivery_person_age (lines 57-81): the returned dict is
modelled as an association list in group-key order. -/
def validate_delivery_person_age (d : DataFrame) :
    Except String (List (Value × List Value)) :=
  if "delivery_person_id" ∉ d.columns ∨ "delivery_person_age" ∉ d.columns then
    .error "The DataFrame must contain delivery_person_id and delivery_person_age columns."
  else
    .ok ((groupKeys d "delivery_person_id").filterMap (agesEntry d))

/-- Row selection data[data[delivery_time] < 0] of line 98. -/
def negDeliveryRows (d : DataFrame) : List Row :=
  d.rows.filter (fun r => (getVal r "delivery_time").ltInt 0)

/-- Row selection data[data[delivery_time] > 120] of line 103. -/
def highDeliveryRows (d : DataFrame) : List Row :=
  d.rows.filter (fun r => (getVal r "delivery_time").gtInt 120)

/-- Source validate_delivery_time (lines 83-107). -/
def validate_delivery_time (d : DataFrame) : Except String (List String) :=
  if "delivery_time" ∉ d.columns then
    .error "The DataFrame must contain delivery_time column."
  else
    .ok ((if (negDeliveryRows d).isEmpty then [] else ["Negative delivery times found."])
      ++ (if (highDeliveryRows d).isEmpty then [] else ["Delivery times exceeding 120 minutes found."]))

def expectedWeatherConditions : List String :=
  ["Fog", "Cloudy", "Sunny", "Sandstorms", "Windy", "Stormy"]

def missingWeatherRows (d : DataFrame) : List Row :=
  d.rows.filter (fun r => (getVal r "weather_condition").isMissing)

def invalidWeatherRows (d : DataFrame) : List Row :=
  d.rows.filter (fun r => !(getVal r "weather_condition").isinStr expectedWeatherConditions)

/-- Discrepancy dict of validate_weather_condition: a key is present exactly
when the source inserts it (nonempty row selection). -/
structure WeatherReport where
  missingWeatherConditions : Option Nat
  invalidWeatherConditions : Option (Nat × List Value)
deriving DecidableEq, Repr

/-- Discrepancy dict assembled at lines 344-355: a key is present exactly when
the source inserts it (nonempty row selection). Note that isin is false on
missing values, hence rows with a missing weather_condition also land in the
invalid selection. -/
def weatherReport (d : DataFrame) : WeatherReport :=
  { missingWeatherConditions :=
      if (missingWeatherRows d).isEmpty then none
      else some (missingWeatherRows d).length
  , invalidWeatherConditions :=
      if (invalidWeatherRows d).isEmpty then none
      else some ((invalidWeatherRows d).length,
        dedupFirst ((invalidWeatherRows d).map (fun r => getVal r "weather_condition"))) }

/-- Source validate_weather_condition (lines 325-368). The returned message
string is a fixed rendering of this report, so the report is what is
modelled. -/
def validate_weather_condition (d : DataFrame) : Except String WeatherReport :=
  if "weather_condition" ∉ d.columns then
    .error "The DataFrame must contain weather_condition column."
  else
    .ok (weatherReport d)

/-- Split of a character list at a separator, the computable core of the
string splitting the parsers below use. -/
def splitOnChar (sep : Char) : List Char → List (List Char)
  | [] => [[]]
  | c :: cs =>
    match splitOnChar sep cs with
    | [] => [[c]]
    | h :: t => if c = sep then [] :: h :: t else (c :: h) :: t

/-- Decimal value of a digit list. -/
def decimalVal (l : List Char) : Nat :=
  l.foldl (fun a c => a * 10 + (c.toNat - 48)) 0

/-- Test that a component is one or two decimal digits, as strptime accepts
for a two-digit directive. -/
def isShortDigits (l : List Char) : Bool :=
  decide (1 ≤ l.length) && decide (l.length ≤ 2) && l.all Char.isDigit

/-- Parser for the strict %H:%M:%S format used at lines 302-303, returning
seconds of day. -/
def parseTimeHMS (s : String) : Option Nat :=
  match splitOnChar ':' s.data with
  | [h, m, sec] =>
    if isShortDigits h ∧ isShortDigits m ∧ isShortDigits sec
        ∧ decimalVal h < 24 ∧ decimalVal m < 60 ∧ decimalVal sec < 60 then
      some (decimalVal h * 3600 + decimalVal m * 60 + decimalVal sec)
    else none
  | _ => none

/-- pd.to_datetime(v, format=%H:%M:%S, errors=raise): a missing value passes
through as NaT (ok none) without raising; a string either parses or raises
ValueError (error); other scalar types also raise against a time format. A
datetime value is returned unchanged. -/
def toDatetimeHMS (v : Value) : Except Unit (Option Nat) :=
  match v with
  | .missing => .ok none
  | .str s =>
    match parseTimeHMS s with
    | some t => .ok (some t)
    | none => .error ()
  | .int _ => .error ()
  | .date n => .ok (some n)

/-- pandas comparison on possibly-NaT operands: any comparison with NaT is
false. -/
def ltNaT : Option Nat → Option Nat → Bool
  | some a, some b => a < b
  | _, _ => false

/-- Row lands in invalid_times (line 308): the try block raised while parsing
either field. The source parses time_ordered first and short-circuits, which
yields the same classification as this disjunction. -/
def rowTimesInvalid (r : Row) : Bool :=
  match toDatetimeHMS (getVal r "time_ordered") with
  | .error _ => true
  | .ok _ =>
    match toDatetimeHMS (getVal r "time_order_picked") with
    | .error _ => true
    | .ok _ => false

/-- Row lands in inconsistent_times (lines 305-306): both fields got through
to_datetime and time_order_picked < time_ordered. -/
def rowTimesInconsistent (r : Row) : Bool :=
  match toDatetimeHMS (getVal r "time_ordered"), toDatetimeHMS (getVal r "time_order_picked") with
  | .ok o, .ok p => ltNaT p o
  | _, _ => false

/-- Discrepancy dict of validate_order_time; an empty list stands for an
absent key, which the claims never distinguish. -/
structure OrderTimeReport where
  missingTimeOrdered : Option Nat
  missingTimeOrderPicked : Option Nat
  invalidTimes : List (Value × Value)
  inconsistentTimes : List (Value × Value)
deriving DecidableEq, Repr

/-- Discrepancy dict assembled at lines 287-313; the appended pairs carry the
original row values, as in the source. -/
def orderTimeReport (d : DataFrame) : OrderTimeReport :=
  { missingTimeOrdered :=
      if (d.rows.filter (fun r => (getVal r "time_ordered").isMissing)).isEmpty then none
      else some (d.rows.filter (fun r => (getVal r "time_ordered").isMissing)).length
  , missingTimeOrderPicked :=
      if (d.rows.filter (fun r => (getVal r "time_order_picked").isMissing)).isEmpty then none
      else some (d.rows.filter (fun r => (getVal r "time_order_picked").isMissing)).length
  , invalidTimes := d.rows.filterMap (fun r =>
      if rowTimesInvalid r then
        some (getVal r "time_ordered", getVal r "time_order_picked")
      else none)
  , inconsistentTimes := d.rows.filterMap (fun r =>
      if rowTimesInconsistent r then
        some (getVal r "time_ordered", getVal r "time_order_picked")
      else none) }

/-- Source validate_order_time (lines 270-323). -/
def validate_order_time (d : DataFrame) : Except String OrderTimeReport :=
  if "time_ordered" ∉ d.columns ∨ "time_order_picked" ∉ d.columns then
    .error "The DataFrame must contain time_ordered and time_order_picked columns."
  else
    .ok (orderTimeReport d)

/-- Raw CSV time cell: the loaded time columns hold either a missing value or
a string. -/
def rawTimeVal (v : Value) : Prop :=
  v = Value.missing ∨ ∃ s, v = Value.str s

/-- pd.to_datetime general parser restricted to ISO YYYY-MM-DD strings, the
shape the dataset uses; any other string is unparseable and coerces to NaT.
The day index is a monotone encoding, exact calendar arithmetic being
immaterial to the claims. -/
def parseDateISO (s : String) : Option Nat :=
  match splitOnChar '-' s.data with
  | [y, m, dd] =>
    if (y.length = 4 && y.all Char.isDigit && isShortDigits m && isShortDigits dd)
        ∧ 1 ≤ decimalVal m ∧ decimalVal m ≤ 12 ∧ 1 ≤ decimalVal dd ∧ decimalVal dd ≤ 31 then
      some (decimalVal y * 372 + decimalVal m * 31 + decimalVal dd)
    else none
  | _ => none

/-- Elementwise pd.to_datetime(col, errors=coerce): strings parse or coerce to
NaT, datetimes pass through, missing stays NaT; an integer is read as an epoch
offset (never exercised by the claims). -/
def toDatetimeCoerce (v : Value) : Value :=
  match v with
  | .str s =>
    match parseDateISO s with
    | some n => .date n
    | none => .missing
  | .date n => .date n
  | .int n => .date n.natAbs
  | .missing => .missing

/-- Line 244 of the source: data[order_date] = pd.to_datetime(data[order_date],
errors=coerce). This writes the coerced column back into the caller DataFrame
in place. -/
def coerceOrderDates (d : DataFrame) : DataFrame :=
  { d with rows := d.rows.map (fun r =>
      r.map (fun p => if p.1 == "order_date" then (p.1, toDatetimeCoerce p.2) else p)) }

/-- pandas comparison (v > now) against a timestamp: false on NaT. -/
def Value.dateGt : Value → Nat → Bool
  | .date n, m => n > m
  | _, _ => false

/-- Datetime64 dtype content test: after coercion every cell is a datetime or
NaT, so the format_error branch at line 257 can never fire. -/
def isDatetimeLike : Value → Bool
  | .date _ => true
  | .missing => true
  | _ => false

structure OrderDateReport where
  missingDates : Option Nat
  invalidDates : Option (List Value)
  futureDates : Option (List Value)
  formatError : Bool
deriving DecidableEq, Repr

/-- Discrepancy dict of validate_order_date (lines 232-258); now models
pd.Timestamp.now() in the day encoding of parseDateISO. The missing check runs
on the dataset as given, the invalid and future checks on the coerced column,
exactly as the source interleaves them. -/
def orderDateReport (now : Nat) (d : DataFrame) : OrderDateReport :=
  let missingRows := d.rows.filter (fun r => (getVal r "order_date").isMissing)
  let d2 := coerceOrderDates d
  let invalidRows := d2.rows.filter (fun r => (getVal r "order_date").isMissing)
  let futureRows := d2.rows.filter (fun r => (getVal r "order_date").dateGt now)
  { missingDates := if missingRows.isEmpty then none else some missingRows.length
  , invalidDates :=
      if invalidRows.isEmpty then none
      else some (invalidRows.map (fun r => getVal r "order_date"))
  , futureDates :=
      if futureRows.isEmpty then none
      else some (futureRows.map (fun r => getVal r "order_date"))
  , formatError := !(colVals d2 "order_date").all isDatetimeLike }

/-- Message rendering of lines 260-268: one line per discrepancy key in
insertion order. Value.fmt prints NaT entries as nan, a detail no claim
depends on. -/
def renderOrderDateReport (rep : OrderDateReport) : String :=
  let entries :=
    (match rep.missingDates with
     | some n => ["missing_dates: Missing order dates found: " ++ toString n]
     | none => [])
    ++ (match rep.invalidDates with
     | some l => ["invalid_dates: Invalid order dates found: ["
         ++ String.intercalate ", " (l.map Value.fmt) ++ "]"]
     | none => [])
    ++ (match rep.futureDates with
     | some l => ["future_dates: Future order dates found: ["
         ++ String.intercalate ", " (l.map Value.fmt) ++ "]"]
     | none => [])
    ++ (if rep.formatError then ["format_error: order_date is not in datetime64 format."] else [])
  if entries.isEmpty then "All order dates are valid and consistent."
  else "Discrepancies found in order dates:\n" ++ String.intercalate "\n" entries ++ "\n"

/-- Source validate_order_date (lines 222-268). Because line 244 mutates the
input DataFrame, the embedding returns the post-call DataFrame alongside the
result: first component is the state of the caller data after the call. -/
def validate_order_date (now : Nat) (d : DataFrame) : DataFrame × Except String String :=
  if "order_date" ∉ d.columns then
    (d, .error "The DataFrame must contain order_date column.")
  else
    (coerceOrderDates d, .ok (renderOrderDateReport (orderDateReport now d)))

inductive PyError where
  | valueError : String → PyError
  | attributeError : String → PyError
deriving DecidableEq, Repr

/-- Source validate_restaurant_coordinate (lines 148-183). The range scans of
lines 166-175 complete, but line 178 calls unique() on a DataFrameGroupBy, an
attribute pandas does not define (only SeriesGroupBy has unique), so the call
raises AttributeError before any result can be assembled: with the three
columns present the function never returns. -/
def validate_restaurant_coordinate (d : DataFrame) :
    Except PyError (List (Value × List String)) :=
  if "restaurant_id" ∉ d.columns ∨ "restaurant_latitude" ∉ d.columns
      ∨ "restaurant_longitude" ∉ d.columns then
    .error (.valueError
      "The DataFrame must contain restaurant_id, restaurant_latitude, and restaurant_longitude columns.")
  else
    .error (.attributeError "DataFrameGroupBy object has no attribute unique")

theorem mem_dedupAux (l : List Value) : ∀ (seen : List Value) (v : Value),
    v ∈ dedupAux seen l ↔ v ∈ l ∧ v ∉ seen := by
  induction l with
  | nil => intro seen v; simp [dedupAux]
  | cons a tl ih =>
    intro seen v
    by_cases ha : a ∈ seen <;> by_cases hv : v = a <;>
      simp [dedupAux, ha, hv, ih, List.mem_cons]

theorem nodup_dedupAux (l : List Value) : ∀ (seen : List Value), (dedupAux seen l).Nodup := by
  induction l with
  | nil => intro seen; simp [dedupAux]
  | cons a tl ih =>
    intro seen
    simp only [dedupAux]
    split
    · exact ih seen
    · rw [List.nodup_cons]
      refine ⟨fun hmem => ?_, ih (a :: seen)⟩
      rw [mem_dedupAux] at hmem
      exact hmem.2 (List.mem_cons_self a seen)

theorem mem_dedupFirst (l : List Value) (v : Value) : v ∈ dedupFirst l ↔ v ∈ l := by
  simp [dedupFirst, mem_dedupAux]

theorem nodup_dedupFirst (l : List Value) : (dedupFirst l).Nodup :=
  nodup_dedupAux l []

theorem isMissing_false_iff (v : Value) : v.isMissing = false ↔ v ≠ Value.missing := by
  cases v <;> simp [Value.isMissing]

theorem isMissing_true_iff (v : Value) : v.isMissing = true ↔ v = Value.missing := by
  cases v <;> simp [Value.isMissing]

/-- C1: refuted by the code, which is the slip here: the spec fixes a read-only
pass (mutation belongs to the cleaning phase, in data_cleaning.py), but line
244 of data_validation.py writes the coerced order_date column back into the
caller DataFrame. On a one-row dataset whose order_date holds the string
2022-03-15, the call rewrites that field to a datetime value, so the dataset
after the call differs from the dataset before it. -/
theorem validate_order_date_mutates_input :
    (validate_order_date 900000
        ⟨["order_date"], [[("order_date", Value.str "2022-03-15")]]⟩).1
      = ⟨["order_date"], [[("order_date", Value.date 752292)]]⟩
    ∧ (validate_order_date 900000
        ⟨["order_date"], [[("order_date", Value.str "2022-03-15")]]⟩).1
      ≠ ⟨["order_date"], [[("order_date", Value.str "2022-03-15")]]⟩ :=
  ⟨rfl, by decide⟩

/-- C8: refuted by the code through the same in-place mutation as C1. On a
one-row dataset whose order_date holds the unparseable string bad, the first
call coerces the field to NaT in place and reports it under invalid_dates; the
second call then sees NaT, additionally reports missing_dates, and returns a
different message. -/
theorem validate_order_date_not_idempotent :
    (validate_order_date 900000
        ⟨["order_date"], [[("order_date", Value.str "bad")]]⟩).2
      = .ok "Discrepancies found in order dates:\ninvalid_dates: Invalid order dates found: [nan]\n"
    ∧ (validate_order_date 900000
        ((validate_order_date 900000
          ⟨["order_date"], [[("order_date", Value.str "bad")]]⟩).1)).2
      = .ok "Discrepancies found in order dates:\nmissing_dates: Missing order dates found: 1\ninvalid_dates: Invalid order dates found: [nan]\n"
    ∧ ("Discrepancies found in order dates:\ninvalid_dates: Invalid order dates found: [nan]\n"
        ≠ "Discrepancies found in order dates:\nmissing_dates: Missing order dates found: 1\ninvalid_dates: Invalid order dates found: [nan]\n") :=
  ⟨rfl, rfl, by decide⟩

/-- C2 counterexample: two rows with a missing id and distinct
delivery_person_id values yield no discrepancy at all, because groupby with
its default dropna=True drops the missing-key rows instead of grouping them
under a sentinel, and the reverse grouping counts distinct ids with nunique,
which ignores missing. The claim predicts a reported discrepancy here. -/
theorem validate_id_missing_key_counterexample :
    validate_id ⟨["id", "delivery_person_id"],
      [[("id", Value.missing), ("delivery_person_id", Value.str "a")],
       [("id", Value.missing), ("delivery_person_id", Value.str "b")]]⟩ = .ok [] :=
  rfl

/-- C3 counterexample: an id carrying one non-missing delivery_person_id and
one missing delivery_person_id is not reported, because nunique with its
default dropna=True ignores the missing value and counts one distinct value,
not two. The claim predicts this id to be reported. -/
theorem validate_id_missing_dep_counterexample :
    validate_id ⟨["id", "delivery_person_id"],
      [[("id", Value.int 1), ("delivery_person_id", Value.str "a")],
       [("id", Value.int 1), ("delivery_person_id", Value.missing)]]⟩ = .ok [] :=
  rfl

/-- C6 counterexample: on a dataset whose single row has a missing
weather_condition, the invalid category is nonempty (count 1, listing the
missing value), because isin is false on missing values and the invalid
selection negates isin. The claim predicts the row to appear only under the
missing category. -/
theorem weather_missing_counted_invalid_counterexample :
    validate_weather_condition ⟨["weather_condition"], [[("weather_condition", Value.missing)]]⟩
      = .ok ⟨some 1, some (1, [Value.missing])⟩ :=
  rfl

/-- C9: the claim states the intended invariant (spec section 9), and the code
is the slip: with all three columns present, the consistency step at line 178
calls unique() on a DataFrameGroupBy, an attribute pandas does not define, so
the function raises AttributeError and never records any inconsistency. In
particular it never returns a result, for any dataset and any candidate
result; the concrete conjunct shows the raise on a dataset where restaurant 1
has two distinct coordinate pairs and the claim demands a recorded issue. -/
theorem validate_restaurant_coordinate_crashes :
    validate_restaurant_coordinate
      ⟨["restaurant_id", "restaurant_latitude", "restaurant_longitude"],
        [[("restaurant_id", Value.int 1), ("restaurant_latitude", Value.int 10),
          ("restaurant_longitude", Value.int 20)],
         [("restaurant_id", Value.int 1), ("restaurant_latitude", Value.int 11),
          ("restaurant_longitude", Value.int 21)]]⟩
      = .error (.attributeError "DataFrameGroupBy object has no attribute unique")
    ∧ ∀ (d : DataFrame) (res : List (Value × List String)),
        validate_restaurant_coordinate d ≠ .ok res := by
  refine ⟨rfl, fun d res => ?_⟩
  unfold validate_restaurant_coordinate
  split <;> simp

/-- C9 witness: the general part of the theorem applied at the concrete
two-row dataset and the empty candidate result. -/
theorem validate_restaurant_coordinate_crashes_witness :
    validate_restaurant_coordinate
      ⟨["restaurant_id", "restaurant_latitude", "restaurant_longitude"],
        [[("restaurant_id", Value.int 1), ("restaurant_latitude", Value.int 10),
          ("restaurant_longitude", Value.int 20)],
         [("restaurant_id", Value.int 1), ("restaurant_latitude", Value.int 11),
          ("restaurant_longitude", Value.int 21)]]⟩
      ≠ .ok [] :=
  validate_restaurant_coordinate_crashes.2 _ []

theorem nuniqueDep_eq_zero (d : DataFrame) (c dep : String) (k : Value)
    (h : ∀ r ∈ d.rows, getVal r dep = Value.missing) :
    nuniqueDep d c k dep = 0 := by
  have hnil : ((groupDepVals d c k dep).filter (fun v => !v.isMissing)) = [] := by
    rw [List.filter_eq_nil_iff]
    intro a ha
    rw [groupDepVals, List.mem_map] at ha
    obtain ⟨r, hr, rfl⟩ := ha
    rw [groupRows, List.mem_filter] at hr
    rw [h r hr.1]
    simp [Value.isMissing]
  rw [nuniqueDep, hnil]
  rfl

theorem validate_id_ok_branch (d : DataFrame) (h1 : "id" ∈ d.columns)
    (h2 : "delivery_person_id" ∈ d.columns) :
    validate_id d = .ok (idDirectionMsgs d ++ dpidDirectionMsgs d) := by
  rw [validate_id, if_neg (not_or.mpr ⟨not_not_intro h1, not_not_intro h2⟩)]

/-- C2 amended: rows whose id is missing are excluded from the id grouping
(groupby keeps its default dropna=True and silently drops missing keys), so no
sentinel missing-key group exists; in particular, a dataset of two rows with
missing id and arbitrary, possibly distinct, delivery_person_id values yields
no discrepancy at all. -/
theorem validate_id_drops_missing_id_rows (v1 v2 : Value) :
    validate_id ⟨["id", "delivery_person_id"],
      [[("id", Value.missing), ("delivery_person_id", v1)],
       [("id", Value.missing), ("delivery_person_id", v2)]]⟩ = .ok [] := by
  have hmiss : ∀ r ∈ ([[("id", Value.missing), ("delivery_person_id", v1)],
       [("id", Value.missing), ("delivery_person_id", v2)]] : List Row),
      getVal r "id" = Value.missing := by
    intro r hr
    simp only [List.mem_cons, List.not_mem_nil, or_false] at hr
    rcases hr with rfl | rfl <;> rfl
  rw [validate_id_ok_branch _ (by simp) (by simp)]
  have hA : idDirectionMsgs ⟨["id", "delivery_person_id"],
      [[("id", Value.missing), ("delivery_person_id", v1)],
       [("id", Value.missing), ("delivery_person_id", v2)]]⟩ = [] := by
    rw [idDirectionMsgs, List.filterMap_eq_nil_iff]
    intro k hk
    rw [groupKeys, mem_dedupFirst, List.mem_filter, colVals, List.mem_map] at hk
    obtain ⟨⟨r, hr, rfl⟩, hkm⟩ := hk
    rw [hmiss r hr] at hkm
    simp [Value.isMissing] at hkm
  have hB : dpidDirectionMsgs ⟨["id", "delivery_person_id"],
      [[("id", Value.missing), ("delivery_person_id", v1)],
       [("id", Value.missing), ("delivery_person_id", v2)]]⟩ = [] := by
    rw [dpidDirectionMsgs, List.filterMap_eq_nil_iff]
    intro k hk
    rw [nuniqueDep_eq_zero _ _ _ _ hmiss]
    simp
  rw [hA, hB]
  rfl

/-- C2 witness: the amended theorem applied at two concrete distinct
delivery_person_id values. -/
theorem validate_id_drops_missing_id_rows_witness :
    validate_id ⟨["id", "delivery_person_id"],
      [[("id", Value.missing), ("delivery_person_id", Value.str "x")],
       [("id", Value.missing), ("delivery_person_id", Value.str "y")]]⟩ = .ok [] :=
  validate_id_drops_missing_id_rows (Value.str "x") (Value.str "y")

/-- C3 amended: a missing dependent value is ignored, not treated as a
distinct unset value: nunique keeps its default dropna=True, so an id whose
rows carry one non-missing delivery_person_id and one missing one counts a
single distinct value and is not reported; on such a two-row dataset
validate_id returns no discrepancy. -/
theorem validate_id_ignores_missing_dep (v : Value) (hv : v ≠ Value.missing) :
    validate_id ⟨["id", "delivery_person_id"],
      [[("id", Value.int 1), ("delivery_person_id", v)],
       [("id", Value.int 1), ("delivery_person_id", Value.missing)]]⟩ = .ok [] := by
  have hvm : v.isMissing = false := (isMissing_false_iff v).mpr hv
  rw [validate_id_ok_branch _ (by simp) (by simp)]
  have hA : idDirectionMsgs ⟨["id", "delivery_person_id"],
      [[("id", Value.int 1), ("delivery_person_id", v)],
       [("id", Value.int 1), ("delivery_person_id", Value.missing)]]⟩ = [] := by
    rw [idDirectionMsgs, List.filterMap_eq_nil_iff]
    intro k hk
    have hkeys : groupKeys ⟨["id", "delivery_person_id"],
        [[("id", Value.int 1), ("delivery_person_id", v)],
         [("id", Value.int 1), ("delivery_person_id", Value.missing)]]⟩ "id"
        = [Value.int 1] := rfl
    rw [hkeys, List.mem_singleton] at hk
    subst hk
    have hdep : groupDepVals ⟨["id", "delivery_person_id"],
        [[("id", Value.int 1), ("delivery_person_id", v)],
         [("id", Value.int 1), ("delivery_person_id", Value.missing)]]⟩
        "id" (Value.int 1) "delivery_person_id" = [v, Value.missing] := rfl
    have hnu : nuniqueDep ⟨["id", "delivery_person_id"],
        [[("id", Value.int 1), ("delivery_person_id", v)],
         [("id", Value.int 1), ("delivery_person_id", Value.missing)]]⟩
        "id" (Value.int 1) "delivery_person_id" = 1 := by
      rw [nuniqueDep, hdep]
      rw [show List.filter (fun w => !w.isMissing) [v, Value.missing] = [v] from by
        simp [hvm, Value.isMissing]]
      rfl
    rw [hnu]
    simp
  have hB : dpidDirectionMsgs ⟨["id", "delivery_person_id"],
      [[("id", Value.int 1), ("delivery_person_id", v)],
       [("id", Value.int 1), ("delivery_person_id", Value.missing)]]⟩ = [] := by
    rw [dpidDirectionMsgs, List.filterMap_eq_nil_iff]
    intro k hk
    have hkeys : groupKeys ⟨["id", "delivery_person_id"],
        [[("id", Value.int 1), ("delivery_person_id", v)],
         [("id", Value.int 1), ("delivery_person_id", Value.missing)]]⟩
        "delivery_person_id" = dedupFirst [v] := by
      rw [groupKeys]
      rw [show colVals ⟨["id", "delivery_person_id"],
          [[("id", Value.int 1), ("delivery_person_id", v)],
           [("id", Value.int 1), ("delivery_person_id", Value.missing)]]⟩
          "delivery_person_id" = [v, Value.missing] from rfl]
      simp [hvm, Value.isMissing]
    rw [hkeys] at hk
    rw [mem_dedupFirst, List.mem_singleton] at hk
    subst k
    have e1 : (getVal [("id", Value.int 1), ("delivery_person_id", v)] "delivery_person_id"
        == v) = true := beq_self_eq_true' v
    have e2 : (getVal [("id", Value.int 1), ("delivery_person_id", Value.missing)]
        "delivery_person_id" == v) = false := beq_eq_false_iff_ne.mpr (Ne.symm hv)
    have hgroup : groupRows ⟨["id", "delivery_person_id"],
        [[("id", Value.int 1), ("delivery_person_id", v)],
         [("id", Value.int 1), ("delivery_person_id", Value.missing)]]⟩
        "delivery_person_id" v
        = [[("id", Value.int 1), ("delivery_person_id", v)]] := by
      rw [groupRows]
      simp [List.filter_cons, e1, e2]
    have hnu : nuniqueDep ⟨["id", "delivery_person_id"],
        [[("id", Value.int 1), ("delivery_person_id", v)],
         [("id", Value.int 1), ("delivery_person_id", Value.missing)]]⟩
        "delivery_person_id" v "id" = 1 := by
      rw [nuniqueDep, groupDepVals, hgroup]
      rfl
    rw [hnu]
    simp
  rw [hA, hB]
  rfl

/-- C3 witness: the amended theorem applied with the non-missing
delivery_person_id a. -/
theorem validate_id_ignores_missing_dep_witness :
    Value.str "a" ≠ Value.missing
    ∧ validate_id ⟨["id", "delivery_person_id"],
        [[("id", Value.int 1), ("delivery_person_id", Value.str "a")],
         [("id", Value.int 1), ("delivery_person_id", Value.missing)]]⟩ = .ok [] :=
  ⟨by decide, validate_id_ignores_missing_dep (Value.str "a") (by decide)⟩

/-- C4: confirmed. A validator whose required columns are absent fails with an
error message naming the required (hence the missing) columns, and the error
is independent of the row content, so it is raised before any row is scanned;
the failure is confined to that rule: on the same dataset, a validator whose
required column is present still returns its report normally. Instantiated
with validate_id (missing id or delivery_person_id) and
validate_weather_condition, the two rules the claim cites. -/
theorem missing_column_fails_fast_and_confined (cols : List String) (rows : List Row)
    (h : "id" ∉ cols ∨ "delivery_person_id" ∉ cols) :
    validate_id ⟨cols, rows⟩
        = .error "The DataFrame must contain id and delivery_person_id columns."
    ∧ ("weather_condition" ∈ cols →
        validate_weather_condition ⟨cols, rows⟩ = .ok (weatherReport ⟨cols, rows⟩)) := by
  constructor
  · rw [validate_id, if_pos h]
  · intro hw
    rw [validate_weather_condition, if_neg (not_not_intro hw)]

/-- C4 witness: the theorem applied to a dataset that lacks the id columns but
holds a weather_condition column. -/
theorem missing_column_fails_fast_and_confined_witness :
    validate_id ⟨["weather_condition"], [[("weather_condition", Value.str "Sunny")]]⟩
        = .error "The DataFrame must contain id and delivery_person_id columns."
    ∧ validate_weather_condition ⟨["weather_condition"], [[("weather_condition", Value.str "Sunny")]]⟩
        = .ok (weatherReport ⟨["weather_condition"], [[("weather_condition", Value.str "Sunny")]]⟩) := by
  have h := missing_column_fails_fast_and_confined ["weather_condition"]
    [[("weather_condition", Value.str "Sunny")]] (Or.inl (by decide))
  exact ⟨h.1, h.2 (by decide)⟩

theorem nodup_groupKeys (d : DataFrame) (c : String) : (groupKeys d c).Nodup := by
  rw [groupKeys]
  exact nodup_dedupFirst _

theorem mem_groupKeys_of_group_nonempty (d : DataFrame) (c : String) (k : Value)
    (hk : k ≠ Value.missing) (hne : groupRows d c k ≠ []) : k ∈ groupKeys d c := by
  have hex : ∃ r ∈ d.rows, (getVal r c == k) = true := by
    by_contra hcon
    push_neg at hcon
    apply hne
    rw [groupRows, List.filter_eq_nil_iff]
    exact hcon
  obtain ⟨r, hr, hbeq⟩ := hex
  have hkc : k ∈ colVals d c := by
    rw [colVals, List.mem_map]
    exact ⟨r, hr, eq_of_beq hbeq⟩
  rw [groupKeys, mem_dedupFirst, List.mem_filter]
  refine ⟨hkc, ?_⟩
  rw [(isMissing_false_iff k).mpr hk]
  rfl

theorem agesEntry_eq_some (d : DataFrame) (k : Value) (q : Value × List Value)
    (h : agesEntry d k = some q) : q = (k, uniqueAges d k) := by
  rw [agesEntry] at h
  split at h
  · exact (Option.some.inj h).symm
  · exact Option.noConfusion h

theorem countP_agesEntry (d : DataFrame) (k : Value) :
    ∀ (keys : List Value), keys.Nodup → k ∈ keys →
      agesEntry d k = some (k, uniqueAges d k) →
      List.countP (fun p => p.1 == k) (keys.filterMap (agesEntry d)) = 1 := by
  intro keys
  induction keys with
  | nil =>
    intro _ hk _
    exact absurd hk (List.not_mem_nil k)
  | cons a tl ih =>
    intro hnd hk hsome
    obtain ⟨hna, hnd2⟩ := List.nodup_cons.mp hnd
    rcases List.mem_cons.mp hk with rfl | hk2
    · have h0 : List.countP (fun p => p.1 == k) (tl.filterMap (agesEntry d)) = 0 := by
        rw [List.countP_eq_zero]
        intro q hq
        rw [List.mem_filterMap] at hq
        obtain ⟨x, hx, hqx⟩ := hq
        rw [agesEntry_eq_some d x q hqx]
        intro hbeq
        have hxk : x = k := eq_of_beq hbeq
        subst hxk
        exact hna hx
      rw [List.filterMap_cons_some hsome, List.countP_cons, h0]
      have hpa : (((k, uniqueAges d k).1 == k) : Bool) = true := beq_self_eq_true' k
      rw [hpa]
      rfl
    · have hak : (a == k) = false := by
        rw [beq_eq_false_iff_ne]
        intro hc
        subst hc
        exact hna hk2
      cases hfa : agesEntry d a with
      | none =>
        rw [List.filterMap_cons_none hfa]
        exact ih hnd2 hk2 hsome
      | some q =>
        rw [List.filterMap_cons_some hfa]
        have hq : q = (a, uniqueAges d a) := agesEntry_eq_some d a q hfa
        subst hq
        have hpa : (((a, uniqueAges d a).1 == k) : Bool) = false := hak
        rw [List.countP_cons, hpa]
        have hrec := ih hnd2 hk2 hsome
        rw [hrec]
        rfl

/-- C5: confirmed. Any non-missing delivery_person_id whose group shows more
than one unique age appears exactly once as a key of the returned dict,
mapped to the full list of unique ages observed for it (unique keeps values
in order of first appearance); and on the three-row example of the claim the
result is exactly the one-entry dict mapping id 1 to ages 30 and 31. -/
theorem validate_delivery_person_age_distinct (d : DataFrame)
    (h1 : "delivery_person_id" ∈ d.columns) (h2 : "delivery_person_age" ∈ d.columns)
    (k : Value) (hk : k ≠ Value.missing) (hlen : (uniqueAges d k).length > 1) :
    (validate_delivery_person_age d
        = .ok ((groupKeys d "delivery_person_id").filterMap (agesEntry d)))
    ∧ List.countP (fun p => p.1 == k)
        ((groupKeys d "delivery_person_id").filterMap (agesEntry d)) = 1
    ∧ (k, uniqueAges d k) ∈ (groupKeys d "delivery_person_id").filterMap (agesEntry d)
    ∧ validate_delivery_person_age ageExample
      = .ok [(Value.int 1, [Value.int 30, Value.int 31])] := by
  have hsome : agesEntry d k = some (k, uniqueAges d k) := by
    rw [agesEntry, if_pos hlen]
  have hne : groupRows d "delivery_person_id" k ≠ [] := by
    intro hnil
    have hempty : uniqueAges d k = [] := by
      rw [uniqueAges, uniqueDep, groupDepVals, hnil]
      rfl
    rw [hempty] at hlen
    simp at hlen
  have hkmem : k ∈ groupKeys d "delivery_person_id" :=
    mem_groupKeys_of_group_nonempty d _ k hk hne
  refine ⟨?_, ?_, ?_, rfl⟩
  · rw [validate_delivery_person_age,
      if_neg (not_or.mpr ⟨not_not_intro h1, not_not_intro h2⟩)]
  · exact countP_agesEntry d k _ (nodup_groupKeys d _) hkmem hsome
  · exact List.mem_filterMap.mpr ⟨k, hkmem, hsome⟩

/-- C5 witness: the theorem applied to the three-row example dataset of the
claim, at key id 1. -/
theorem validate_delivery_person_age_distinct_witness :
    (validate_delivery_person_age ageExample
        = .ok ((groupKeys ageExample "delivery_person_id").filterMap (agesEntry ageExample)))
    ∧ List.countP (fun p => p.1 == Value.int 1)
        ((groupKeys ageExample "delivery_person_id").filterMap (agesEntry ageExample)) = 1
    ∧ (Value.int 1, uniqueAges ageExample (Value.int 1))
        ∈ (groupKeys ageExample "delivery_person_id").filterMap (agesEntry ageExample)
    ∧ validate_delivery_person_age ageExample
      = .ok [(Value.int 1, [Value.int 30, Value.int 31])] :=
  validate_delivery_person_age_distinct ageExample (by decide) (by decide) (Value.int 1)
    (by decide) (by decide)

theorem missing_is_invalid_weather (r : Row)
    (hmiss : (getVal r "weather_condition").isMissing = true) :
    (!(getVal r "weather_condition").isinStr expectedWeatherConditions) = true := by
  rw [(isMissing_true_iff _).mp hmiss]
  rfl

/-- C6 amended: a row with a missing weather_condition is reported under the
missing-values category and is ALSO counted among the invalid weather
conditions, because isin is false on missing values and the invalid selection
keeps every row failing isin. Whenever at least one weather_condition is
missing, the report carries the missing count, the invalid count is at least
the missing count, and the invalid unique list contains the missing value. -/
theorem weather_missing_in_both_categories (d : DataFrame)
    (h : "weather_condition" ∈ d.columns)
    (hm : missingWeatherRows d ≠ []) :
    validate_weather_condition d = .ok (weatherReport d)
    ∧ (weatherReport d).missingWeatherConditions = some (missingWeatherRows d).length
    ∧ ∃ c l, (weatherReport d).invalidWeatherConditions = some (c, l)
        ∧ (missingWeatherRows d).length ≤ c
        ∧ Value.missing ∈ l := by
  have hsub : ∀ r ∈ d.rows, (getVal r "weather_condition").isMissing = true →
      (!(getVal r "weather_condition").isinStr expectedWeatherConditions) = true :=
    fun r _ hmiss => missing_is_invalid_weather r hmiss
  obtain ⟨r0, hr0⟩ := List.exists_mem_of_ne_nil _ hm
  have hr0f := List.mem_filter.mp (by rw [missingWeatherRows] at hr0; exact hr0)
  have hinv_ne : invalidWeatherRows d ≠ [] := by
    intro hnil
    rw [invalidWeatherRows, List.filter_eq_nil_iff] at hnil
    exact hnil r0 hr0f.1 (hsub r0 hr0f.1 hr0f.2)
  have hlen_le : (missingWeatherRows d).length ≤ (invalidWeatherRows d).length := by
    rw [missingWeatherRows, invalidWeatherRows,
      ← List.countP_eq_length_filter, ← List.countP_eq_length_filter]
    exact List.countP_mono_left hsub
  have hmem : Value.missing
      ∈ (invalidWeatherRows d).map (fun r => getVal r "weather_condition") := by
    rw [List.mem_map]
    refine ⟨r0, ?_, (isMissing_true_iff _).mp hr0f.2⟩
    rw [invalidWeatherRows, List.mem_filter]
    exact ⟨hr0f.1, hsub r0 hr0f.1 hr0f.2⟩
  refine ⟨?_, ?_, (invalidWeatherRows d).length,
    dedupFirst ((invalidWeatherRows d).map (fun r => getVal r "weather_condition")),
    ?_, hlen_le, ?_⟩
  · rw [validate_weather_condition, if_neg (not_not_intro h)]
  · simp [weatherReport, List.isEmpty_eq_false.mpr hm]
  · simp [weatherReport, List.isEmpty_eq_false.mpr hinv_ne]
  · rw [mem_dedupFirst]
    exact hmem

/-- C6 witness: the amended theorem applied to the one-row dataset whose
weather_condition is missing. -/
theorem weather_missing_in_both_categories_witness :
    validate_weather_condition ⟨["weather_condition"], [[("weather_condition", Value.missing)]]⟩
        = .ok (weatherReport ⟨["weather_condition"], [[("weather_condition", Value.missing)]]⟩)
    ∧ (weatherReport ⟨["weather_condition"],
          [[("weather_condition", Value.missing)]]⟩).missingWeatherConditions
        = some (missingWeatherRows ⟨["weather_condition"],
            [[("weather_condition", Value.missing)]]⟩).length
    ∧ ∃ c l, (weatherReport ⟨["weather_condition"],
          [[("weather_condition", Value.missing)]]⟩).invalidWeatherConditions = some (c, l)
        ∧ (missingWeatherRows ⟨["weather_condition"],
            [[("weather_condition", Value.missing)]]⟩).length ≤ c
        ∧ Value.missing ∈ l :=
  weather_missing_in_both_categories
    ⟨["weather_condition"], [[("weather_condition", Value.missing)]]⟩
    (by decide) (by decide)

/-- C10: confirmed. Both checks of validate_delivery_time compare a value with
a number, and comparisons are false on missing values, so rows with a missing
delivery_time never influence the result: dropping them (equivalently, adding
such rows) leaves the returned list unchanged, and a dataset whose
delivery_time values are all missing yields the empty list. -/
theorem validate_delivery_time_ignores_missing (cols : List String) (rows : List Row)
    (h : "delivery_time" ∈ cols) :
    validate_delivery_time ⟨cols, rows⟩
      = validate_delivery_time
          ⟨cols, rows.filter (fun r => !(getVal r "delivery_time").isMissing)⟩
    ∧ ((∀ r ∈ rows, getVal r "delivery_time" = Value.missing) →
        validate_delivery_time ⟨cols, rows⟩ = .ok []) := by
  have hno : ¬("delivery_time" ∉ cols) := not_not_intro h
  constructor
  · have hneg : negDeliveryRows ⟨cols, rows⟩
        = negDeliveryRows ⟨cols, rows.filter (fun r => !(getVal r "delivery_time").isMissing)⟩ := by
      rw [negDeliveryRows, negDeliveryRows]
      show _ = List.filter _ (List.filter _ rows)
      rw [List.filter_filter]
      exact List.filter_congr (fun r _ => by
        cases hvv : getVal r "delivery_time" <;> simp [Value.ltInt, Value.isMissing, hvv])
    have hhigh : highDeliveryRows ⟨cols, rows⟩
        = highDeliveryRows ⟨cols, rows.filter (fun r => !(getVal r "delivery_time").isMissing)⟩ := by
      rw [highDeliveryRows, highDeliveryRows]
      show _ = List.filter _ (List.filter _ rows)
      rw [List.filter_filter]
      exact List.filter_congr (fun r _ => by
        cases hvv : getVal r "delivery_time" <;> simp [Value.gtInt, Value.isMissing, hvv])
    rw [validate_delivery_time, validate_delivery_time, if_neg hno, if_neg hno, hneg, hhigh]
  · intro hall
    have hnegnil : negDeliveryRows ⟨cols, rows⟩ = [] := by
      rw [negDeliveryRows, List.filter_eq_nil_iff]
      intro r hr
      rw [hall r hr]
      simp [Value.ltInt]
    have hhighnil : highDeliveryRows ⟨cols, rows⟩ = [] := by
      rw [highDeliveryRows, List.filter_eq_nil_iff]
      intro r hr
      rw [hall r hr]
      simp [Value.gtInt]
    rw [validate_delivery_time, if_neg hno, hnegnil, hhighnil]
    rfl

/-- C10 witness: the theorem applied to the one-row dataset whose
delivery_time is missing, with the all-missing implication discharged. -/
theorem validate_delivery_time_ignores_missing_witness :
    validate_delivery_time ⟨["delivery_time"], [[("delivery_time", Value.missing)]]⟩
      = validate_delivery_time
          ⟨["delivery_time"], ([[("delivery_time", Value.missing)]] : List Row).filter
            (fun r => !(getVal r "delivery_time").isMissing)⟩
    ∧ validate_delivery_time ⟨["delivery_time"], [[("delivery_time", Value.missing)]]⟩
      = .ok [] := by
  have h := validate_delivery_time_ignores_missing ["delivery_time"]
    [[("delivery_time", Value.missing)]] (by decide)
  exact ⟨h.1, h.2 (by decide)⟩

theorem toDatetimeHMS_error_iff (v : Value) (hv : rawTimeVal v) :
    toDatetimeHMS v = .error () ↔ ∃ s, v = Value.str s ∧ parseTimeHMS s = none := by
  rcases hv with rfl | ⟨s, rfl⟩
  · simp [toDatetimeHMS]
  · cases hp : parseTimeHMS s <;> simp [toDatetimeHMS, hp]

theorem rowTimesInvalid_iff (r : Row)
    (h1 : rawTimeVal (getVal r "time_ordered"))
    (h2 : rawTimeVal (getVal r "time_order_picked")) :
    rowTimesInvalid r = true ↔
      (∃ s, getVal r "time_ordered" = Value.str s ∧ parseTimeHMS s = none)
      ∨ (∃ s, getVal r "time_order_picked" = Value.str s ∧ parseTimeHMS s = none) := by
  rw [← toDatetimeHMS_error_iff _ h1, ← toDatetimeHMS_error_iff _ h2]
  cases ho : toDatetimeHMS (getVal r "time_ordered") with
  | error e =>
    cases e
    simp [rowTimesInvalid, ho]
  | ok o =>
    cases hp : toDatetimeHMS (getVal r "time_order_picked") with
    | error e =>
      cases e
      simp [rowTimesInvalid, ho, hp]
    | ok p =>
      simp [rowTimesInvalid, ho, hp]

theorem rowTimesInconsistent_iff (r : Row)
    (h1 : rawTimeVal (getVal r "time_ordered"))
    (h2 : rawTimeVal (getVal r "time_order_picked")) :
    rowTimesInconsistent r = true ↔
      ∃ a b ta tb, getVal r "time_ordered" = Value.str a
        ∧ getVal r "time_order_picked" = Value.str b
        ∧ parseTimeHMS a = some ta ∧ parseTimeHMS b = some tb ∧ tb < ta := by
  rcases h1 with ho | ⟨a, ha⟩
  · rcases h2 with hp | ⟨b, hb⟩
    · simp [rowTimesInconsistent, toDatetimeHMS, ltNaT, ho, hp]
    · cases hpb : parseTimeHMS b <;>
        simp [rowTimesInconsistent, toDatetimeHMS, ltNaT, ho, hb, hpb]
  · rcases h2 with hp | ⟨b, hb⟩
    · cases hpa : parseTimeHMS a <;>
        simp [rowTimesInconsistent, toDatetimeHMS, ltNaT, ha, hp, hpa]
    · cases hpa : parseTimeHMS a <;> cases hpb : parseTimeHMS b <;>
        simp [rowTimesInconsistent, toDatetimeHMS, ltNaT, ha, hb, hpa, hpb]

theorem rowTimes_not_both (r : Row) :
    ¬(rowTimesInvalid r = true ∧ rowTimesInconsistent r = true) := by
  rintro ⟨hi, hc⟩
  cases ho : toDatetimeHMS (getVal r "time_ordered") with
  | error e =>
    simp [rowTimesInconsistent, ho] at hc
  | ok o =>
    cases hp : toDatetimeHMS (getVal r "time_order_picked") with
    | error e =>
      simp [rowTimesInconsistent, ho, hp] at hc
    | ok p =>
      simp [rowTimesInvalid, ho, hp] at hi

/-- C7: confirmed. Over raw time columns (each cell a string or missing), a
row enters the invalid_times category exactly when one of its two present
values fails to parse against %H:%M:%S (a missing value is not a parse
failure: to_datetime passes it through as NaT and the source counts it in the
separate missing categories); a row enters inconsistent_times exactly when
both values are present, both parse, and the picked time is strictly earlier
than the ordered time; no row satisfies both, because a raised parse error
skips the comparison and a compared row raised no error; and an invalid row
is never dropped: its value pair appears in the reported invalid_times
list (and likewise for inconsistent rows). -/
theorem validate_order_time_categories (d : DataFrame)
    (h1 : "time_ordered" ∈ d.columns) (h2 : "time_order_picked" ∈ d.columns)
    (hraw : ∀ r ∈ d.rows,
      rawTimeVal (getVal r "time_ordered") ∧ rawTimeVal (getVal r "time_order_picked")) :
    validate_order_time d = .ok (orderTimeReport d)
    ∧ ∀ r ∈ d.rows,
        (rowTimesInvalid r = true ↔
          (∃ s, getVal r "time_ordered" = Value.str s ∧ parseTimeHMS s = none)
          ∨ (∃ s, getVal r "time_order_picked" = Value.str s ∧ parseTimeHMS s = none))
        ∧ (rowTimesInconsistent r = true ↔
            ∃ a b ta tb, getVal r "time_ordered" = Value.str a
              ∧ getVal r "time_order_picked" = Value.str b
              ∧ parseTimeHMS a = some ta ∧ parseTimeHMS b = some tb ∧ tb < ta)
        ∧ ¬(rowTimesInvalid r = true ∧ rowTimesInconsistent r = true)
        ∧ (rowTimesInvalid r = true →
            (getVal r "time_ordered", getVal r "time_order_picked")
              ∈ (orderTimeReport d).invalidTimes)
        ∧ (rowTimesInconsistent r = true →
            (getVal r "time_ordered", getVal r "time_order_picked")
              ∈ (orderTimeReport d).inconsistentTimes) := by
  constructor
  · rw [validate_order_time,
      if_neg (not_or.mpr ⟨not_not_intro h1, not_not_intro h2⟩)]
  · intro r hr
    obtain ⟨hr1, hr2⟩ := hraw r hr
    refine ⟨rowTimesInvalid_iff r hr1 hr2, rowTimesInconsistent_iff r hr1 hr2,
      rowTimes_not_both r, ?_, ?_⟩
    · intro hi
      exact List.mem_filterMap.mpr ⟨r, hr, by rw [if_pos hi]⟩
    · intro hc
      exact List.mem_filterMap.mpr ⟨r, hr, by rw [if_pos hc]⟩

/-- C7 witness: the theorem applied to a two-row dataset holding one row with
an unparseable ordered time and one row with both times parseable but picked
before ordered. -/
theorem validate_order_time_categories_witness :
    validate_order_time ⟨["time_ordered", "time_order_picked"],
        [[("time_ordered", Value.str "25:00:00"), ("time_order_picked", Value.str "10:00:00")],
         [("time_ordered", Value.str "12:00:00"), ("time_order_picked", Value.str "11:00:00")]]⟩
      = .ok (orderTimeReport ⟨["time_ordered", "time_order_picked"],
        [[("time_ordered", Value.str "25:00:00"), ("time_order_picked", Value.str "10:00:00")],
         [("time_ordered", Value.str "12:00:00"), ("time_order_picked", Value.str "11:00:00")]]⟩)
    ∧ ∀ r ∈ ([[("time_ordered", Value.str "25:00:00"), ("time_order_picked", Value.str "10:00:00")],
         [("time_ordered", Value.str "12:00:00"), ("time_order_picked", Value.str "11:00:00")]] : List Row),
        (rowTimesInvalid r = true ↔
          (∃ s, getVal r "time_ordered" = Value.str s ∧ parseTimeHMS s = none)
          ∨ (∃ s, getVal r "time_order_picked" = Value.str s ∧ parseTimeHMS s = none))
        ∧ (rowTimesInconsistent r = true ↔
            ∃ a b ta tb, getVal r "time_ordered" = Value.str a
              ∧ getVal r "time_order_picked" = Value.str b
              ∧ parseTimeHMS a = some ta ∧ parseTimeHMS b = some tb ∧ tb < ta)
        ∧ ¬(rowTimesInvalid r = true ∧ rowTimesInconsistent r = true)
        ∧ (rowTimesInvalid r = true →
            (getVal r "time_ordered", getVal r "time_order_picked")
              ∈ (orderTimeReport ⟨["time_ordered", "time_order_picked"],
                  [[("time_ordered", Value.str "25:00:00"), ("time_order_picked", Value.str "10:00:00")],
                   [("time_ordered", Value.str "12:00:00"), ("time_order_picked", Value.str "11:00:00")]]⟩).invalidTimes)
        ∧ (rowTimesInconsistent r = true →
            (getVal r "time_ordered", getVal r "time_order_picked")
              ∈ (orderTimeReport ⟨["time_ordered", "time_order_picked"],
                  [[("time_ordered", Value.str "25:00:00"), ("time_order_picked", Value.str "10:00:00")],
                   [("time_ordered", Value.str "12:00:00"), ("time_order_picked", Value.str "11:00:00")]]⟩).inconsistentTimes) :=
  validate_order_time_categories _ (by decide) (by decide) (by
    intro r hr
    simp only [List.mem_cons, List.not_mem_nil, or_false] at hr
    rcases hr with rfl | rfl
    · exact ⟨Or.inr ⟨"25:00:00", rfl⟩, Or.inr ⟨"10:00:00", rfl⟩⟩
    · exact ⟨Or.inr ⟨"12:00:00", rfl⟩, Or.inr ⟨"11:00:00", rfl⟩⟩)

end Zomato
